import Mathlib

/-!
Verification of the diamond viewer (`src/main.ts`) against its specification.

The development has two parts, mirroring the two components of the program:

* the resource-swap logic of `loadModel` (module state `diamond : THREE.Group | null`
  and the scene's set of attached model subtrees), embedded as a state type `World`
  with one function for the synchronous prefix of `loadModel` (everything before the
  `await loader.loadAsync(...)` suspension point) and one function for its
  continuation (the `try`/`catch` completion handler);

* the orbit-camera controller (module state `isDragging`, `previousMousePosition`,
  `spherical`, `targetSpherical` and the handlers `onMouseDown`, `onMouseMove`,
  `onMouseUp`, `onMouseWheel`, `animate`), embedded over the real numbers, with
  JavaScript numbers idealised as reals.
-/

/-! ## Part 1: the resource swap logic of `loadModel` -/

/-- State of the module variables relevant to model swapping: `diamond` is the
module-scoped `THREE.Group | null` reference (model subtrees are named by `Nat`
handles), `sceneObjs` is the list of loaded model subtrees currently attached as
children of the scene (scene children that are not loaded models — the plane, the
background — never interact with `loadModel` and are not represented), and
`consoleErrors` counts `console.error` calls made by `loadModel`. -/
structure World where
  diamond : Option Nat
  sceneObjs : List Nat
  consoleErrors : Nat
deriving DecidableEq

/-- Result of the awaited `loader.loadAsync(modelUrl)` promise: it fulfills with a
fresh `gltf.scene` subtree (a handle), or rejects with some error. -/
inductive LoadResult where
  | fulfilled (handle : Nat)
  | rejected
deriving DecidableEq

/-- How the promise returned by `loadModel` itself settles. -/
inductive Settled where
  | fulfilled
  | rejected
deriving DecidableEq

/-- `scene.remove(obj)`: detaches `obj` from the scene's children if present,
no-op otherwise (three.js `Object3D.remove`). -/
def sceneRemove (h : Nat) (objs : List Nat) : List Nat :=
  objs.erase h

/-- `scene.add(obj)`: if `obj` already has a parent it is first removed from it,
then appended to the scene's children (three.js `Object3D.add`). -/
def sceneAdd (h : Nat) (objs : List Nat) : List Nat :=
  objs.erase h ++ [h]

/-- The synchronous prefix of `loadModel` (main.ts lines 63–69), run at call time,
before the `await`:

    if (diamond) { scene.remove(diamond); }

The `diamond` reference itself is not cleared. -/
def loadModelStart (w : World) : World :=
  match w.diamond with
  | some h => { w with sceneObjs := sceneRemove h w.sceneObjs }
  | none => w

/-- The continuation of `loadModel` (main.ts lines 71–85), run when the awaited
load settles. On fulfillment (`try` body after the `await`): assign the loaded
subtree to `diamond` and `scene.add` it. On rejection (`catch` branch):
`console.error` once; the `catch` does not rethrow, so in both cases the promise
returned by `loadModel` itself fulfills. The material-assignment `traverse` in
the success branch mutates mesh materials only and does not affect scene
membership, so it has no footprint in `World`. -/
def loadModelComplete (r : LoadResult) (w : World) : World × Settled :=
  match r with
  | .fulfilled h =>
      ({ w with diamond := some h, sceneObjs := sceneAdd h w.sceneObjs }, .fulfilled)
  | .rejected =>
      ({ w with consoleErrors := w.consoleErrors + 1 }, .fulfilled)

/-- A world in which one model (handle `0`) is live: `diamond` references it and it
is attached to the scene. This is the state after a completed initial load. -/
def w0 : World :=
  { diamond := some 0, sceneObjs := [0], consoleErrors := 0 }

/-- The overlapping-swap execution from `w0`: `loadModel("A")` is called, then
`loadModel("B")` is called before either load resolves; B's load (handle `2`)
then resolves first and A's load (handle `1`) resolves second, both successful.
Single-threaded interleaving: both synchronous prefixes run, then the two
completions in arrival order. -/
def overlapBFirst : World :=
  (loadModelComplete (.fulfilled 1)
    (loadModelComplete (.fulfilled 2) (loadModelStart (loadModelStart w0))).1).1

/-- The same overlapping-swap execution but with A's load (handle `1`) resolving
first and B's load (handle `2`) resolving second. -/
def overlapAFirst : World :=
  (loadModelComplete (.fulfilled 2)
    (loadModelComplete (.fulfilled 1) (loadModelStart (loadModelStart w0))).1).1

/-- The failing-load execution from `w0`: `loadModel("X")` is called and the load
rejects. -/
def failX : World :=
  (loadModelComplete .rejected (loadModelStart w0)).1

/-! ## Part 2: the orbit camera controller

JavaScript numbers are idealised as real numbers; `Math.PI` is `Real.pi`,
`Math.max`/`Math.min` are `max`/`min`. -/

noncomputable section

/-- `THREE.Spherical`: a radius, an azimuthal angle `theta` and a polar angle
`phi`. -/
structure Spherical where
  radius : ℝ
  theta : ℝ
  phi : ℝ

/-- `previousMousePosition = { x, y }`. -/
structure MousePosition where
  x : ℝ
  y : ℝ

/-- The module-scoped camera-control state of main.ts: the drag flag, the drag
anchor, the smoothed (rendered) spherical coordinates `spherical` and the
input-driven target `targetSpherical`. -/
structure CameraState where
  isDragging : Bool
  previousMousePosition : MousePosition
  spherical : Spherical
  targetSpherical : Spherical

/-- `const dampingFactor = 0.10` (main.ts line 26). -/
def dampingFactor : ℝ := 0.10

/-- `const rotationSpeed = 2` (main.ts line 249). -/
def rotationSpeed : ℝ := 2

/-- `const zoomSpeed = 0.020` (main.ts line 270). -/
def zoomSpeed : ℝ := 0.020

/-- `const minPolarAngle = 0.05` (main.ts line 257). -/
def minPolarAngle : ℝ := 0.05

/-- `const maxPolarAngle = Math.PI - 0.05` (main.ts line 258). -/
def maxPolarAngle : ℝ := Real.pi - 0.05

/-- `const minRadius = 1` (main.ts line 277). -/
def minRadius : ℝ := 1

/-- `const maxRadius = 20` (main.ts line 278). -/
def maxRadius : ℝ := 20

/-- `THREE.MathUtils.lerp(x, y, t) = (1 - t) * x + t * y`. -/
def lerp (x y t : ℝ) : ℝ := (1 - t) * x + t * y

/-- `onMouseDown(event)` (main.ts lines 232–238): on the left button
(`event.button === 0`), set `isDragging` and record the anchor; otherwise do
nothing. -/
def onMouseDown (button : Nat) (clientX clientY : ℝ) (s : CameraState) : CameraState :=
  if button = 0 then
    { s with isDragging := true
             previousMousePosition := { x := clientX, y := clientY } }
  else s

/-- `onMouseMove(event)` (main.ts lines 240–262): early-return unless dragging;
otherwise compute the deltas from the anchor, update the anchor, rotate
`targetSpherical.theta`/`.phi` scaled by `rotationSpeed * (Math.PI /
window.innerHeight)`, and clamp `phi` to `[minPolarAngle, maxPolarAngle]`.
`innerHeight` stands for `window.innerHeight`. -/
def onMouseMove (innerHeight clientX clientY : ℝ) (s : CameraState) : CameraState :=
  if s.isDragging = false then s
  else
    let deltaX := clientX - s.previousMousePosition.x
    let deltaY := clientY - s.previousMousePosition.y
    let theta1 := s.targetSpherical.theta - deltaX * rotationSpeed * (Real.pi / innerHeight)
    let phi1 := s.targetSpherical.phi - deltaY * rotationSpeed * (Real.pi / innerHeight)
    { s with previousMousePosition := { x := clientX, y := clientY }
             targetSpherical := { s.targetSpherical with
               theta := theta1
               phi := max minPolarAngle (min maxPolarAngle phi1) } }

/-- `onMouseUp()` (main.ts lines 264–266). -/
def onMouseUp (s : CameraState) : CameraState :=
  { s with isDragging := false }

/-- `onMouseWheel(event)` (main.ts lines 268–282): add `event.deltaY * zoomSpeed`
to `targetSpherical.radius`, then clamp to `[minRadius, maxRadius]`. -/
def onMouseWheel (deltaY : ℝ) (s : CameraState) : CameraState :=
  let r1 := s.targetSpherical.radius + deltaY * zoomSpeed
  { s with targetSpherical := { s.targetSpherical with
      radius := max minRadius (min maxRadius r1) } }

/-- The camera-state part of `animate()` (main.ts lines 208–223): lerp each
component of `spherical` toward `targetSpherical` by `dampingFactor`. The
subsequent `camera.position.setFromSpherical` / `lookAt` / `render` calls read
this state but do not change it. -/
def animate (s : CameraState) : CameraState :=
  { s with spherical :=
      { theta := lerp s.spherical.theta s.targetSpherical.theta dampingFactor
        phi := lerp s.spherical.phi s.targetSpherical.phi dampingFactor
        radius := lerp s.spherical.radius s.targetSpherical.radius dampingFactor } }

/-- One input or frame event consumed by the controller. -/
inductive Ev where
  | down (button : Nat) (x y : ℝ)
  | move (x y : ℝ)
  | up
  | wheel (deltaY : ℝ)
  | tick

/-- Dispatch one event to its handler, as the registered listeners and the
animation loop of main.ts do. -/
def step (innerHeight : ℝ) (s : CameraState) (e : Ev) : CameraState :=
  match e with
  | .down b x y => onMouseDown b x y s
  | .move x y => onMouseMove innerHeight x y s
  | .up => onMouseUp s
  | .wheel d => onMouseWheel d s
  | .tick => animate s

/-- Run a finite sequence of events. -/
def run (innerHeight : ℝ) (s : CameraState) (es : List Ev) : CameraState :=
  es.foldl (step innerHeight) s

/-- The bounds invariant of the data model: `targetSpherical.phi` and
`spherical.phi` lie in `[minPolarAngle, maxPolarAngle]`, and
`targetSpherical.radius` and `spherical.radius` lie in `[minRadius, maxRadius]`. -/
def PoseBounds (s : CameraState) : Prop :=
  minPolarAngle ≤ s.targetSpherical.phi ∧ s.targetSpherical.phi ≤ maxPolarAngle ∧
  minPolarAngle ≤ s.spherical.phi ∧ s.spherical.phi ≤ maxPolarAngle ∧
  minRadius ≤ s.targetSpherical.radius ∧ s.targetSpherical.radius ≤ maxRadius ∧
  minRadius ≤ s.spherical.radius ∧ s.spherical.radius ≤ maxRadius

/-- A concrete in-bounds camera state used to instantiate the hypotheses of the
camera theorems: not dragging, anchor at the origin, both poses at radius 5,
azimuth 0, polar angle 1. -/
def s0 : CameraState :=
  { isDragging := false
    previousMousePosition := { x := 0, y := 0 }
    spherical := { radius := 5, theta := 0, phi := 1 }
    targetSpherical := { radius := 5, theta := 0, phi := 1 } }

/-- A concrete camera state in which a drag is already active, with anchor
`(0, 0)`. -/
def s1 : CameraState :=
  { s0 with isDragging := true }

/-- A concrete camera state whose `spherical` differs from `targetSpherical`
(radius 6 versus 5), used to instantiate the damping-convergence theorem. -/
def s2 : CameraState :=
  { s0 with spherical := { radius := 6, theta := 0, phi := 1 } }

end

/-! ## Theorems: the resource swap logic -/

/-- Claim C1. The claim states that after `requestSwap("A")` then
`requestSwap("B")` issued before either load resolves, with both loads
succeeding, the live resource is the one loaded for B regardless of completion
order, A's completion being discarded. The code has no sequence check: each
completion unconditionally assigns `diamond` and adds itself to the scene. In
the execution where B's load resolves before A's, the final live reference is
A's subtree (handle 1), not B's (handle 2), and B's subtree is still attached
alongside it — the claim fails on the code at this input. -/
theorem C1_overlap_last_completion_wins :
    overlapBFirst.diamond = some 1 ∧ overlapBFirst.sceneObjs = [2, 1] := by
  decide

/-- Claim C2. The claim states that a failing load leaves the previously live
resource attached exactly as before the request. The code removes the live
model from the scene in the synchronous prefix of `loadModel`, before the load
begins; when the load then fails, only `console.error` runs, so the previously
live model (handle 0, attached in `w0`) is no longer attached afterwards. The
"exactly one failure reported" half does hold (`consoleErrors = 1`). -/
theorem C2_failure_leaves_scene_empty :
    w0.sceneObjs = [0] ∧ failX.sceneObjs = [] ∧ failX.consoleErrors = 1 ∧
    failX.diamond = some 0 := by
  decide

/-- Claim C3. The claim states that at most one loaded model subtree is attached
to the scene at any instant. In the overlapping execution both completions add
their subtree and neither removes the other's (each call's synchronous prefix
only removed the model that was live at call time), so after the second
completion two model subtrees are attached simultaneously — the claim fails on
the code at this input, in both completion orders. -/
theorem C3_two_models_attached :
    overlapBFirst.sceneObjs.length = 2 ∧ overlapAFirst.sceneObjs.length = 2 := by
  decide

/-- Claim C10: the promise returned by `loadModel` always fulfills — a rejection
of the underlying `loader.loadAsync` is caught by the `try`/`catch` inside
`loadModel`, reported via exactly one `console.error`, and never propagated to
the caller; a successful load reports nothing. -/
theorem C10_loadModel_always_fulfills (r : LoadResult) (w : World) :
    (loadModelComplete r w).2 = Settled.fulfilled ∧
    (loadModelComplete r w).1.consoleErrors =
      w.consoleErrors + (match r with | .rejected => 1 | .fulfilled _ => 0) := by
  cases r <;> simp [loadModelComplete]

/-! ## Theorems: the orbit camera controller -/

theorem clamp_mem_lo (a b x : ℝ) : a ≤ max a (min b x) :=
  le_max_left a _

theorem clamp_mem_hi {a b : ℝ} (x : ℝ) (hab : a ≤ b) : max a (min b x) ≤ b :=
  max_le hab (min_le_left _ _)

theorem clamp_eq_self {a b x : ℝ} (h1 : a ≤ x) (h2 : x ≤ b) :
    max a (min b x) = x := by
  rw [min_eq_right h2, max_eq_right h1]

theorem clamp_eq_lo {a b x : ℝ} (h1 : x ≤ a) (h2 : a ≤ b) :
    max a (min b x) = a := by
  rcases le_total x b with h | h
  · rw [min_eq_right h, max_eq_left h1]
  · rw [min_eq_left h, max_eq_left (le_trans h h1)]

/-- Claim C9: any finite sequence of `onMouseMove` calls made while dragging is
inactive leaves the state — in particular the target pose — unchanged: each call
takes the early-return branch, so every call in the sequence is the identity. -/
theorem C9_move_inactive_noop (innerHeight : ℝ) (moves : List (ℝ × ℝ))
    (s : CameraState) (h : s.isDragging = false) :
    (∀ x y : ℝ, onMouseMove innerHeight x y s = s) ∧
    moves.foldl (fun st p => onMouseMove innerHeight p.1 p.2 st) s = s := by
  have hstep : ∀ x y : ℝ, onMouseMove innerHeight x y s = s := by
    intro x y
    unfold onMouseMove
    rw [if_pos h]
  refine ⟨hstep, ?_⟩
  induction moves with
  | nil => rfl
  | cons a as ih =>
      rw [List.foldl_cons, hstep a.1 a.2]
      exact ih

/-- Claim C9 witness: a concrete inactive state and a concrete two-move
sequence. -/
theorem C9_move_inactive_noop_witness :
    s0.isDragging = false ∧
    [((1:ℝ), (2:ℝ)), (3, 4)].foldl (fun st p => onMouseMove 600 p.1 p.2 st) s0 = s0 :=
  ⟨rfl, (C9_move_inactive_noop 600 [(1, 2), (3, 4)] s0 rfl).2⟩

/-- Claim C8 counterexample: in the concrete state `s1` a drag is already
active with anchor `(0, 0)`; a re-press `onMouseDown 0 5 7` does change the
controller state, because the handler re-records the anchor unconditionally —
the claim that a re-press while active leaves the state unchanged is false. -/
theorem C8_repress_changes_anchor :
    s1.isDragging = true ∧ onMouseDown 0 5 7 s1 ≠ s1 := by
  refine ⟨rfl, ?_⟩
  intro h
  have h5 := congrArg (fun st : CameraState => st.previousMousePosition.x) h
  simp only [onMouseDown, if_pos rfl] at h5
  have : (5 : ℝ) = 0 := h5
  norm_num at this

/-- Claim C8, amended: a left-button re-press while dragging is already active
leaves the drag-active flag and both poses (`targetSpherical` and `spherical`)
unchanged, but re-records the drag anchor to the new position `(x, y)`. -/
theorem C8_repress_amended (x y : ℝ) (s : CameraState) (h : s.isDragging = true) :
    (onMouseDown 0 x y s).isDragging = true ∧
    (onMouseDown 0 x y s).targetSpherical = s.targetSpherical ∧
    (onMouseDown 0 x y s).spherical = s.spherical ∧
    (onMouseDown 0 x y s).previousMousePosition = { x := x, y := y } := by
  simp only [onMouseDown, if_pos rfl]
  exact ⟨rfl, rfl, rfl, rfl⟩

/-- Claim C8 witness: the amended statement at the concrete active state `s1`. -/
theorem C8_repress_amended_witness :
    s1.isDragging = true ∧
    ((onMouseDown 0 5 7 s1).isDragging = true ∧
     (onMouseDown 0 5 7 s1).targetSpherical = s1.targetSpherical ∧
     (onMouseDown 0 5 7 s1).spherical = s1.spherical ∧
     (onMouseDown 0 5 7 s1).previousMousePosition = { x := 5, y := 7 }) :=
  ⟨rfl, C8_repress_amended 5 7 s1 rfl⟩

/-- Claim C6: for every viewport height `H > 0`, the gesture
`onMouseDown 0 x0 y0` (drag start at `(x0, y0)`) followed by
`onMouseMove H x1 y1` while active changes `targetSpherical.theta` by
`-(x1 - x0) * rotationSpeed * (π / H)` and sets `targetSpherical.phi` to the
clamp of `phi - (y1 - y0) * rotationSpeed * (π / H)` into
`[minPolarAngle, maxPolarAngle]`, with `rotationSpeed = 2`, and leaves
`targetSpherical.radius` unchanged. -/
theorem C6_drag_gesture_delta (innerHeight x0 y0 x1 y1 : ℝ) (s : CameraState)
    (hH : 0 < innerHeight) :
    (onMouseMove innerHeight x1 y1 (onMouseDown 0 x0 y0 s)).targetSpherical.theta
      = s.targetSpherical.theta - (x1 - x0) * rotationSpeed * (Real.pi / innerHeight) ∧
    (onMouseMove innerHeight x1 y1 (onMouseDown 0 x0 y0 s)).targetSpherical.phi
      = max minPolarAngle (min maxPolarAngle
          (s.targetSpherical.phi - (y1 - y0) * rotationSpeed * (Real.pi / innerHeight))) ∧
    (onMouseMove innerHeight x1 y1 (onMouseDown 0 x0 y0 s)).targetSpherical.radius
      = s.targetSpherical.radius ∧
    rotationSpeed = 2 := by
  refine ⟨?_, ?_, ?_, rfl⟩ <;>
    simp [onMouseDown, onMouseMove]

/-- Claim C6 witness: the gesture `onMouseDown 0 100 100` then
`onMouseMove 600 150 80` from the concrete state `s0` at viewport height 600. -/
theorem C6_drag_gesture_delta_witness :
    (0 : ℝ) < 600 ∧
    ((onMouseMove 600 150 80 (onMouseDown 0 100 100 s0)).targetSpherical.theta
       = s0.targetSpherical.theta - (150 - 100) * rotationSpeed * (Real.pi / 600) ∧
     (onMouseMove 600 150 80 (onMouseDown 0 100 100 s0)).targetSpherical.phi
       = max minPolarAngle (min maxPolarAngle
           (s0.targetSpherical.phi - (80 - 100) * rotationSpeed * (Real.pi / 600))) ∧
     (onMouseMove 600 150 80 (onMouseDown 0 100 100 s0)).targetSpherical.radius
       = s0.targetSpherical.radius ∧
     rotationSpeed = 2) :=
  ⟨by norm_num, C6_drag_gesture_delta 600 100 100 150 80 s0 (by norm_num)⟩

/-- Claim C7: for every `deltaY` and every target state satisfying the data
model's radius invariant, `onMouseWheel` sets `targetSpherical.radius` to the
clamp of `radius + deltaY * zoomSpeed` into `[minRadius, maxRadius]` with
`zoomSpeed = 0.020`; a positive `deltaY` never decreases the target radius; and
`onMouseWheel 100` followed by `onMouseWheel (-500)` from any radius at most 9
leaves the target radius equal to `minRadius`. -/
theorem C7_wheel_clamp (deltaY : ℝ) (s : CameraState)
    (h1 : minRadius ≤ s.targetSpherical.radius)
    (h2 : s.targetSpherical.radius ≤ maxRadius) :
    (onMouseWheel deltaY s).targetSpherical.radius
      = max minRadius (min maxRadius (s.targetSpherical.radius + deltaY * zoomSpeed)) ∧
    zoomSpeed = 0.020 ∧
    (0 < deltaY →
      s.targetSpherical.radius ≤ (onMouseWheel deltaY s).targetSpherical.radius) ∧
    (s.targetSpherical.radius ≤ 9 →
      (onMouseWheel (-500) (onMouseWheel 100 s)).targetSpherical.radius = minRadius) := by
  refine ⟨rfl, rfl, ?_, ?_⟩
  · intro hd
    show s.targetSpherical.radius
        ≤ max minRadius (min maxRadius (s.targetSpherical.radius + deltaY * zoomSpeed))
    have hx : s.targetSpherical.radius
        ≤ min maxRadius (s.targetSpherical.radius + deltaY * zoomSpeed) := by
      refine le_min h2 ?_
      have : 0 ≤ deltaY * zoomSpeed := by
        apply mul_nonneg hd.le
        norm_num [zoomSpeed]
      linarith
    exact le_trans hx (le_max_right _ _)
  · intro h9
    show max minRadius (min maxRadius
          (max minRadius (min maxRadius (s.targetSpherical.radius + 100 * zoomSpeed))
            + (-500) * zoomSpeed)) = minRadius
    have e1 : max minRadius (min maxRadius (s.targetSpherical.radius + 100 * zoomSpeed))
        = s.targetSpherical.radius + 100 * zoomSpeed := by
      apply clamp_eq_self
      · simp only [minRadius, zoomSpeed] at h1 ⊢
        norm_num
        linarith
      · simp only [maxRadius, zoomSpeed] at h2 ⊢
        norm_num
        linarith
    rw [e1]
    apply clamp_eq_lo
    · simp only [minRadius, zoomSpeed]
      norm_num
      linarith
    · norm_num [minRadius, maxRadius]

/-- Claim C7 witness: the concrete state `s0` (target radius 5, in range and at
most 9) with `deltaY = 100`. -/
theorem C7_wheel_clamp_witness :
    minRadius ≤ s0.targetSpherical.radius ∧
    s0.targetSpherical.radius ≤ maxRadius ∧
    s0.targetSpherical.radius ≤ 9 ∧
    (onMouseWheel (-500) (onMouseWheel 100 s0)).targetSpherical.radius = minRadius := by
  have hlo : minRadius ≤ s0.targetSpherical.radius := by norm_num [minRadius, s0]
  have hhi : s0.targetSpherical.radius ≤ maxRadius := by norm_num [maxRadius, s0]
  have h9 : s0.targetSpherical.radius ≤ 9 := by norm_num [s0]
  exact ⟨hlo, hhi, h9, (C7_wheel_clamp 100 s0 hlo hhi).2.2.2 h9⟩

theorem minPolar_le_maxPolar : minPolarAngle ≤ maxPolarAngle := by
  have hpi := Real.pi_gt_three
  unfold minPolarAngle maxPolarAngle
  linarith

theorem minRadius_le_maxRadius : minRadius ≤ maxRadius := by
  norm_num [minRadius, maxRadius]

theorem lerp_mem {a b x y t : ℝ} (ht0 : 0 ≤ t) (ht1 : t ≤ 1)
    (hx1 : a ≤ x) (hx2 : x ≤ b) (hy1 : a ≤ y) (hy2 : y ≤ b) :
    a ≤ lerp x y t ∧ lerp x y t ≤ b := by
  unfold lerp
  constructor
  · nlinarith [mul_nonneg (sub_nonneg.2 ht1) (sub_nonneg.2 hx1),
      mul_nonneg ht0 (sub_nonneg.2 hy1)]
  · nlinarith [mul_nonneg (sub_nonneg.2 ht1) (sub_nonneg.2 hx2),
      mul_nonneg ht0 (sub_nonneg.2 hy2)]

theorem onMouseDown_preserves_bounds (b : Nat) (x y : ℝ) (s : CameraState)
    (h : PoseBounds s) : PoseBounds (onMouseDown b x y s) := by
  obtain ⟨h1, h2, h3, h4, h5, h6, h7, h8⟩ := h
  unfold onMouseDown
  split
  · exact ⟨h1, h2, h3, h4, h5, h6, h7, h8⟩
  · exact ⟨h1, h2, h3, h4, h5, h6, h7, h8⟩

theorem onMouseMove_preserves_bounds (innerHeight x y : ℝ) (s : CameraState)
    (h : PoseBounds s) : PoseBounds (onMouseMove innerHeight x y s) := by
  obtain ⟨h1, h2, h3, h4, h5, h6, h7, h8⟩ := h
  unfold onMouseMove
  split
  · exact ⟨h1, h2, h3, h4, h5, h6, h7, h8⟩
  · exact ⟨clamp_mem_lo _ _ _, clamp_mem_hi _ minPolar_le_maxPolar,
      h3, h4, h5, h6, h7, h8⟩

theorem onMouseUp_preserves_bounds (s : CameraState)
    (h : PoseBounds s) : PoseBounds (onMouseUp s) := by
  obtain ⟨h1, h2, h3, h4, h5, h6, h7, h8⟩ := h
  exact ⟨h1, h2, h3, h4, h5, h6, h7, h8⟩

theorem onMouseWheel_preserves_bounds (d : ℝ) (s : CameraState)
    (h : PoseBounds s) : PoseBounds (onMouseWheel d s) := by
  obtain ⟨h1, h2, h3, h4, h5, h6, h7, h8⟩ := h
  exact ⟨h1, h2, h3, h4, clamp_mem_lo _ _ _,
    clamp_mem_hi _ minRadius_le_maxRadius, h7, h8⟩

theorem animate_preserves_bounds (s : CameraState)
    (h : PoseBounds s) : PoseBounds (animate s) := by
  obtain ⟨h1, h2, h3, h4, h5, h6, h7, h8⟩ := h
  have ht0 : (0 : ℝ) ≤ dampingFactor := by norm_num [dampingFactor]
  have ht1 : dampingFactor ≤ 1 := by norm_num [dampingFactor]
  have hphi := lerp_mem ht0 ht1 h3 h4 h1 h2
  have hrad := lerp_mem ht0 ht1 h7 h8 h5 h6
  exact ⟨h1, h2, hphi.1, hphi.2, h5, h6, hrad.1, hrad.2⟩

theorem step_preserves_bounds (innerHeight : ℝ) (e : Ev) (s : CameraState)
    (h : PoseBounds s) : PoseBounds (step innerHeight s e) := by
  cases e with
  | down b x y => exact onMouseDown_preserves_bounds b x y s h
  | move x y => exact onMouseMove_preserves_bounds innerHeight x y s h
  | up => exact onMouseUp_preserves_bounds s h
  | wheel d => exact onMouseWheel_preserves_bounds d s h
  | tick => exact animate_preserves_bounds s h

/-- Claim C4: for every viewport height, every initial state satisfying the
bounds invariant, and every finite sequence of mouse-down, mouse-move,
mouse-up, wheel and frame-tick events (with arbitrary, possibly out-of-range
deltas), the invariant still holds afterwards: `targetSpherical.phi` and
`spherical.phi` stay in `[minPolarAngle, maxPolarAngle] = [0.05, π - 0.05]`,
and `targetSpherical.radius` and `spherical.radius` stay in
`[minRadius, maxRadius] = [1, 20]`. -/
theorem C4_bounds_invariant (innerHeight : ℝ) (es : List Ev) (s : CameraState)
    (h : PoseBounds s) :
    PoseBounds (run innerHeight s es) ∧
    minPolarAngle = 0.05 ∧ maxPolarAngle = Real.pi - 0.05 ∧
    minRadius = 1 ∧ maxRadius = 20 := by
  refine ⟨?_, rfl, rfl, rfl, rfl⟩
  induction es generalizing s with
  | nil => exact h
  | cons e es ih => exact ih _ (step_preserves_bounds innerHeight e s h)

/-- Claim C4 witness: the concrete in-bounds state `s0` and a concrete event
sequence containing a huge drag delta and a huge wheel delta. -/
theorem C4_bounds_invariant_witness :
    PoseBounds s0 ∧
    (PoseBounds (run 600 s0
        [Ev.down 0 100 100, Ev.move 100000 (-100000), Ev.tick,
         Ev.wheel 100000, Ev.tick, Ev.up]) ∧
     minPolarAngle = 0.05 ∧ maxPolarAngle = Real.pi - 0.05 ∧
     minRadius = 1 ∧ maxRadius = 20) := by
  have h0 : PoseBounds s0 := by
    have hpi := Real.pi_gt_three
    unfold PoseBounds s0
    norm_num [minPolarAngle, maxPolarAngle, minRadius, maxRadius]
    all_goals linarith
  exact ⟨h0, C4_bounds_invariant 600 _ s0 h0⟩

theorem animate_iter_target (n : ℕ) (s : CameraState) :
    (animate^[n] s).targetSpherical = s.targetSpherical := by
  induction n with
  | zero => rfl
  | succ n ih =>
      have h1 : (animate (animate^[n] s)).targetSpherical
          = (animate^[n] s).targetSpherical := rfl
      rw [Function.iterate_succ_apply', h1, ih]

theorem animate_iter_radius_gap (n : ℕ) (s : CameraState) :
    (animate^[n] s).spherical.radius - s.targetSpherical.radius
      = (1 - dampingFactor) ^ n * (s.spherical.radius - s.targetSpherical.radius) := by
  induction n with
  | zero => simp
  | succ n ih =>
      rw [Function.iterate_succ_apply']
      have ht := animate_iter_target n s
      have h1 : (animate (animate^[n] s)).spherical.radius
          = (1 - dampingFactor) * (animate^[n] s).spherical.radius
            + dampingFactor * (animate^[n] s).targetSpherical.radius := rfl
      have hrn : (animate^[n] s).spherical.radius
          = s.targetSpherical.radius
            + (1 - dampingFactor) ^ n
              * (s.spherical.radius - s.targetSpherical.radius) := by
        linarith [ih]
      rw [h1, hrn, ht, pow_succ]
      ring

theorem animate_iter_theta_gap (n : ℕ) (s : CameraState) :
    (animate^[n] s).spherical.theta - s.targetSpherical.theta
      = (1 - dampingFactor) ^ n * (s.spherical.theta - s.targetSpherical.theta) := by
  induction n with
  | zero => simp
  | succ n ih =>
      rw [Function.iterate_succ_apply']
      have ht := animate_iter_target n s
      have h1 : (animate (animate^[n] s)).spherical.theta
          = (1 - dampingFactor) * (animate^[n] s).spherical.theta
            + dampingFactor * (animate^[n] s).targetSpherical.theta := rfl
      have hrn : (animate^[n] s).spherical.theta
          = s.targetSpherical.theta
            + (1 - dampingFactor) ^ n
              * (s.spherical.theta - s.targetSpherical.theta) := by
        linarith [ih]
      rw [h1, hrn, ht, pow_succ]
      ring

theorem animate_iter_phi_gap (n : ℕ) (s : CameraState) :
    (animate^[n] s).spherical.phi - s.targetSpherical.phi
      = (1 - dampingFactor) ^ n * (s.spherical.phi - s.targetSpherical.phi) := by
  induction n with
  | zero => simp
  | succ n ih =>
      rw [Function.iterate_succ_apply']
      have ht := animate_iter_target n s
      have h1 : (animate (animate^[n] s)).spherical.phi
          = (1 - dampingFactor) * (animate^[n] s).spherical.phi
            + dampingFactor * (animate^[n] s).targetSpherical.phi := rfl
      have hrn : (animate^[n] s).spherical.phi
          = s.targetSpherical.phi
            + (1 - dampingFactor) ^ n
              * (s.spherical.phi - s.targetSpherical.phi) := by
        linarith [ih]
      rw [h1, hrn, ht, pow_succ]
      ring

theorem damp_pow_mul_nonincr (D : ℝ) (n : ℕ) :
    |(1 - dampingFactor) ^ (n + 1) * D| ≤ |(1 - dampingFactor) ^ n * D| := by
  have h : |(1 - dampingFactor : ℝ)| ≤ 1 := by
    rw [abs_of_nonneg] <;> norm_num [dampingFactor]
  calc |(1 - dampingFactor) ^ (n + 1) * D|
      = |1 - dampingFactor| * |(1 - dampingFactor) ^ n * D| := by
        rw [pow_succ, abs_mul, abs_mul, abs_mul]
        ring
    _ ≤ 1 * |(1 - dampingFactor) ^ n * D| :=
        mul_le_mul_of_nonneg_right h (abs_nonneg _)
    _ = |(1 - dampingFactor) ^ n * D| := one_mul _

theorem damp_geom_le_eps (D ε : ℝ) (hD : 0 ≤ D) (hε : 0 < ε) (n : ℕ)
    (h : Real.log (D / ε) / dampingFactor ≤ (n : ℝ)) :
    (1 - dampingFactor) ^ n * D ≤ ε := by
  have hdamp : dampingFactor = 0.1 := by norm_num [dampingFactor]
  rcases hD.eq_or_lt with hD0 | hD0
  · rw [← hD0, mul_zero]
    exact hε.le
  · have hlog : Real.log (D / ε) ≤ 0.1 * n := by
      rw [hdamp, div_le_iff (by norm_num : (0:ℝ) < 0.1)] at h
      linarith
    have hexp : D / ε ≤ Real.exp (0.1 * n) := by
      have h1 : D / ε = Real.exp (Real.log (D / ε)) :=
        (Real.exp_log (div_pos hD0 hε)).symm
      rw [h1]
      exact Real.exp_le_exp.2 hlog
    have hDle : D ≤ ε * Real.exp (0.1 * n) := by
      rw [div_le_iff hε] at hexp
      linarith
    have hb : (0.9 : ℝ) ≤ Real.exp (-0.1) := by
      have h2 := Real.add_one_le_exp (-0.1 : ℝ)
      linarith
    have hpow : (1 - dampingFactor) ^ n ≤ Real.exp (-(0.1) * (n : ℝ)) := by
      have hab : 1 - dampingFactor ≤ Real.exp (-0.1) := by
        rw [hdamp]
        linarith
      have h3 : (1 - dampingFactor) ^ n ≤ Real.exp (-0.1 : ℝ) ^ n :=
        pow_le_pow_left (by norm_num [dampingFactor]) hab n
      have h4 : Real.exp (-0.1 : ℝ) ^ n = Real.exp (-(0.1) * (n : ℝ)) := by
        rw [← Real.exp_nat_mul]
        congr 1
        ring
      rw [← h4]
      exact h3
    have hfin : (1 - dampingFactor) ^ n * D
        ≤ Real.exp (-(0.1) * (n : ℝ)) * (ε * Real.exp (0.1 * n)) :=
      mul_le_mul hpow hDle hD (Real.exp_nonneg _)
    have hone : Real.exp (-(0.1) * (n : ℝ)) * Real.exp ((0.1 : ℝ) * n) = 1 := by
      rw [← Real.exp_add]
      have h5 : (-(0.1) * (n : ℝ)) + (0.1 : ℝ) * n = 0 := by ring
      rw [h5, Real.exp_zero]
    calc (1 - dampingFactor) ^ n * D
        ≤ Real.exp (-(0.1) * (n : ℝ)) * (ε * Real.exp (0.1 * n)) := hfin
      _ = ε * (Real.exp (-(0.1) * (n : ℝ)) * Real.exp (0.1 * n)) := by ring
      _ = ε := by rw [hone, mul_one]

/-- Claim C5: `animate` leaves `targetSpherical` unchanged, and with an
unchanging target each component of `spherical` is a lerp toward the target by
`dampingFactor`, so the signed gap shrinks by the exact factor
`1 - dampingFactor` per tick; hence the component-wise distance to the target
never increases, and it is at most `ε` once the tick count `n` reaches
`log(distance / ε) / dampingFactor` — a bound proportional to
`1 / dampingFactor`. -/
theorem C5_damped_convergence (s : CameraState) (n : ℕ) (ε : ℝ) (hε : 0 < ε) :
    (animate s).targetSpherical = s.targetSpherical ∧
    ((animate s).spherical.radius - s.targetSpherical.radius
      = (1 - dampingFactor) * (s.spherical.radius - s.targetSpherical.radius)) ∧
    ((animate s).spherical.theta - s.targetSpherical.theta
      = (1 - dampingFactor) * (s.spherical.theta - s.targetSpherical.theta)) ∧
    ((animate s).spherical.phi - s.targetSpherical.phi
      = (1 - dampingFactor) * (s.spherical.phi - s.targetSpherical.phi)) ∧
    (|(animate^[n + 1] s).spherical.radius - s.targetSpherical.radius|
      ≤ |(animate^[n] s).spherical.radius - s.targetSpherical.radius|) ∧
    (|(animate^[n + 1] s).spherical.theta - s.targetSpherical.theta|
      ≤ |(animate^[n] s).spherical.theta - s.targetSpherical.theta|) ∧
    (|(animate^[n + 1] s).spherical.phi - s.targetSpherical.phi|
      ≤ |(animate^[n] s).spherical.phi - s.targetSpherical.phi|) ∧
    ((Real.log (|s.spherical.radius - s.targetSpherical.radius| / ε) / dampingFactor
        ≤ (n : ℝ)) →
      |(animate^[n] s).spherical.radius - s.targetSpherical.radius| ≤ ε) ∧
    ((Real.log (|s.spherical.theta - s.targetSpherical.theta| / ε) / dampingFactor
        ≤ (n : ℝ)) →
      |(animate^[n] s).spherical.theta - s.targetSpherical.theta| ≤ ε) ∧
    ((Real.log (|s.spherical.phi - s.targetSpherical.phi| / ε) / dampingFactor
        ≤ (n : ℝ)) →
      |(animate^[n] s).spherical.phi - s.targetSpherical.phi| ≤ ε) := by
  have hpos : (0 : ℝ) ≤ 1 - dampingFactor := by norm_num [dampingFactor]
  refine ⟨rfl, ?_, ?_, ?_, ?_, ?_, ?_, ?_, ?_, ?_⟩
  · simp only [animate, lerp]
    ring
  · simp only [animate, lerp]
    ring
  · simp only [animate, lerp]
    ring
  · rw [animate_iter_radius_gap (n + 1) s, animate_iter_radius_gap n s]
    exact damp_pow_mul_nonincr _ n
  · rw [animate_iter_theta_gap (n + 1) s, animate_iter_theta_gap n s]
    exact damp_pow_mul_nonincr _ n
  · rw [animate_iter_phi_gap (n + 1) s, animate_iter_phi_gap n s]
    exact damp_pow_mul_nonincr _ n
  · intro hlog
    rw [animate_iter_radius_gap n s, abs_mul, abs_pow, abs_of_nonneg hpos]
    exact damp_geom_le_eps _ ε (abs_nonneg _) hε n hlog
  · intro hlog
    rw [animate_iter_theta_gap n s, abs_mul, abs_pow, abs_of_nonneg hpos]
    exact damp_geom_le_eps _ ε (abs_nonneg _) hε n hlog
  · intro hlog
    rw [animate_iter_phi_gap n s, abs_mul, abs_pow, abs_of_nonneg hpos]
    exact damp_geom_le_eps _ ε (abs_nonneg _) hε n hlog

/-- Claim C5 witness: the concrete state `s2` (current radius 6, target radius
5), tolerance `ε = 2` and tick count `n = 0`: the log-bound hypothesis holds
(`log(1/2) ≤ 0`), and the instantiated theorem gives the distance bound. -/
theorem C5_damped_convergence_witness :
    (0 : ℝ) < 2 ∧
    Real.log (|s2.spherical.radius - s2.targetSpherical.radius| / 2) / dampingFactor
      ≤ ((0 : ℕ) : ℝ) ∧
    |(animate^[0] s2).spherical.radius - s2.targetSpherical.radius| ≤ 2 := by
  have h2 : (0 : ℝ) < 2 := by norm_num
  have hlog : Real.log (|s2.spherical.radius - s2.targetSpherical.radius| / 2)
      / dampingFactor ≤ ((0 : ℕ) : ℝ) := by
    have hv : |s2.spherical.radius - s2.targetSpherical.radius| / 2 = 1 / 2 := by
      norm_num [s2, s0]
    rw [hv]
    have hl : Real.log (1 / 2 : ℝ) ≤ 0 :=
      Real.log_nonpos (by norm_num) (by norm_num)
    have hd : (0 : ℝ) < dampingFactor := by norm_num [dampingFactor]
    simp only [Nat.cast_zero]
    exact div_nonpos_of_nonpos_of_nonneg hl hd.le
  exact ⟨h2, hlog, (C5_damped_convergence s2 0 2 h2).2.2.2.2.2.2.2.1 hlog⟩
